import Mathlib

/-!
Verification of the dd-trace-cpp core against its specification.

This file gives a shallow embedding, in Lean 4, of the parts of the
repository relevant to the claims under review:

* `src/msgpack.h` — the MessagePack writer (`pack_integer`,
  `pack_negative`, `pack_nonnegative`, `pack_str`, `pack_bin`,
  `pack_array`, `pack_map`, `make_overflow_message`,
  `push_number_big_endian`).
* `src/datadog/http_client.cpp` — `HTTPClient::URL::parse`.
* `src/datadog/span.cpp` — the `Span` handle operations
  (`set_tag`, `remove_tag`, `lookup_tag`, `set_error`, `create_child`,
  and the destructor).

Modelling conventions:

* A C++ byte buffer is a `List Nat`, each element `< 256`; `push_back`
  and `append` become list append.  Machine-integer casts are explicit
  `% 2 ^ w` (on `Int`, `%` is `Int.emod`, which matches the bit-pattern
  reading of two's-complement casts to unsigned).
* A C++ function that mutates a buffer and may throw becomes a function
  returning the final buffer together with `Option String`, the thrown
  `std::out_of_range` message (`none` = no throw).  The buffer component
  reflects exactly the `push_back`s executed before the `throw`.
* `std::string` stays `String`; `std::string_view` character data is
  `List Char` (`String.data`).
-/

namespace DdTrace

/-! ## MessagePack writer (src/msgpack.h) -/

/-- `push_number_big_endian(buffer, integer)`: the loop writes, for
`i = 0 .. sizeof - 1`, the byte `(value >> (8 * (size - 1 - i))) & 0xFF`
of the unsigned (two's-complement) cast of the integer, then appends the
whole array.  `w` is `sizeof value` in bytes and `u` the unsigned cast. -/
def push_number_big_endian (buffer : List Nat) (w : Nat) (u : Nat) : List Nat :=
  buffer ++ (List.range w).map (fun i => (u >>> (8 * (w - 1 - i))) % 256)

/-- `make_overflow_message(type, actual, max)`: builds the
`std::out_of_range` message.  Note that the source line `message += max;`
appends `max` as a single `char` (the C++ `std::string::operator+=(char)`
overload is selected after integral conversion), i.e. the byte
`max % 256` — not the decimal rendering of `max`.
`std::to_string(actual)` is the decimal rendering `Nat.repr`. -/
def make_overflow_message (type_name : String) (actual : Nat) (max : Nat) : String :=
  "Cannot msgpack encode " ++ type_name ++ " of size " ++ Nat.repr actual ++
    ", which exceeds the protocol maximum of " ++
    String.singleton (Char.ofNat (max % 256)) ++ "."

/-- `pack_negative(buffer, value)` for `value : std::int64_t`.
Branch conditions and pushed bytes follow the source line by line;
`static_cast<char>`/`static_cast<std::uint8_t>` of a signed value is the
byte `value % 256` (`Int.emod` is non-negative). -/
def pack_negative (buffer : List Nat) (value : Int) : List Nat :=
  if -32 ≤ value then
    buffer ++ [0xE0 ||| ((value + 32) % 256).toNat]
  else if -128 ≤ value then
    buffer ++ [0xD0, (value % 256).toNat]
  else if -32768 ≤ value then
    push_number_big_endian (buffer ++ [0xD1]) 2 ((value % 65536).toNat)
  else if -2147483648 ≤ value then
    push_number_big_endian (buffer ++ [0xD2]) 4 ((value % 4294967296).toNat)
  else if -9223372036854775808 ≤ value then
    push_number_big_endian (buffer ++ [0xD3]) 8 ((value % 18446744073709551616).toNat)
  else
    buffer

/-- `pack_nonnegative(buffer, value)` for `value : std::uint64_t`. -/
def pack_nonnegative (buffer : List Nat) (value : Nat) : List Nat :=
  if value ≤ 0x7F then
    buffer ++ [value % 256]
  else if value ≤ 0xFF then
    buffer ++ [0xCC, value % 256]
  else if value ≤ 0xFFFF then
    push_number_big_endian (buffer ++ [0xCD]) 2 (value % 65536)
  else if value ≤ 0xFFFFFFFF then
    push_number_big_endian (buffer ++ [0xCE]) 4 (value % 4294967296)
  else if value ≤ 0xFFFFFFFFFFFFFFFF then
    push_number_big_endian (buffer ++ [0xCF]) 8 (value % 18446744073709551616)
  else
    buffer

/-- `pack_integer(buffer, value)`: dispatches on the sign.  A 64-bit
caller value is an `Int` in `[-2^63, 2^64)`; for a non-negative value the
unsigned view is `value.toNat`. -/
def pack_integer (buffer : List Nat) (value : Int) : List Nat :=
  if value < 0 then pack_negative buffer value
  else pack_nonnegative buffer value.toNat

/-- `pack_str(buffer, range)`: `size` is the range length; the throwing
branch executes no `push_back`, so the buffer is returned unchanged
there.  `FIX_STR | uint8(size)` is `0xA0 ||| size % 256`. -/
def pack_str (buffer : List Nat) (range : List Nat) : List Nat × Option String :=
  let size := range.length
  if size < 32 then
    (buffer ++ [0xA0 ||| size % 256] ++ range, none)
  else if size ≤ 0xFF then
    (buffer ++ [0xD9, size % 256] ++ range, none)
  else if size ≤ 0xFFFF then
    (push_number_big_endian (buffer ++ [0xDA]) 2 (size % 65536) ++ range, none)
  else if size ≤ 0xFFFFFFFF then
    (push_number_big_endian (buffer ++ [0xDB]) 4 (size % 4294967296) ++ range, none)
  else
    (buffer, some (make_overflow_message "string" size 4294967295))

/-- `pack_bin(buffer, range)`. -/
def pack_bin (buffer : List Nat) (range : List Nat) : List Nat × Option String :=
  let size := range.length
  if size ≤ 0xFF then
    (buffer ++ [0xC4, size % 256] ++ range, none)
  else if size ≤ 0xFFFF then
    (push_number_big_endian (buffer ++ [0xC5]) 2 (size % 65536) ++ range, none)
  else if size ≤ 0xFFFFFFFF then
    (push_number_big_endian (buffer ++ [0xC6]) 4 (size % 4294967296) ++ range, none)
  else
    (buffer, some (make_overflow_message "binary" size 4294967295))

/-- `pack_array(buffer, size)`. -/
def pack_array (buffer : List Nat) (size : Nat) : List Nat × Option String :=
  if size ≤ 15 then
    (buffer ++ [0x90 ||| size % 256], none)
  else if size ≤ 0xFFFF then
    (push_number_big_endian (buffer ++ [0xDC]) 2 (size % 65536), none)
  else if size ≤ 0xFFFFFFFF then
    (push_number_big_endian (buffer ++ [0xDD]) 4 (size % 4294967296), none)
  else
    (buffer, some (make_overflow_message "array" size 4294967295))

/-- `pack_map(buffer, size)`. -/
def pack_map (buffer : List Nat) (size : Nat) : List Nat × Option String :=
  if size ≤ 15 then
    (buffer ++ [0x80 ||| size % 256], none)
  else if size ≤ 0xFFFF then
    (push_number_big_endian (buffer ++ [0xDE]) 2 (size % 65536), none)
  else if size ≤ 0xFFFFFFFF then
    (push_number_big_endian (buffer ++ [0xDF]) 4 (size % 4294967296), none)
  else
    (buffer, some (make_overflow_message "map" size 4294967295))

/-! ## Spec-side integer decision table

The specification describes the integer encoding as a narrowest-first
decision table.  The following definitions are written from the SPEC's
words (not from the source) and are compared with the source embedding
in the C1 theorem. -/

/-- Big-endian payload of width `w` bytes, as the spec's "big-endian
payload". -/
def specBigEndian (w : Nat) (u : Nat) : List Nat :=
  (List.range w).map (fun i => (u >>> (8 * (w - 1 - i))) % 256)

/-- Spec decision table rows for negative values: `(type minimum,
prefix byte, payload width)`, narrowest first. -/
def specIntRows : List (Int × Nat × Nat) :=
  [(-128, 0xD0, 1), (-32768, 0xD1, 2),
   (-2147483648, 0xD2, 4), (-9223372036854775808, 0xD3, 8)]

/-- Spec decision table rows for non-negative values: `(type maximum,
prefix byte, payload width)`, narrowest first. -/
def specUintRows : List (Nat × Nat × Nat) :=
  [(0xFF, 0xCC, 1), (0xFFFF, 0xCD, 2),
   (0xFFFFFFFF, 0xCE, 4), (0xFFFFFFFFFFFFFFFF, 0xCF, 8)]

/-- The spec's narrowest-first decision table: negative `v ≥ -32` is the
single byte `0xE0 ||| (v+32)`; other negatives take the first row whose
minimum is `≤ v`, with the two's-complement big-endian payload;
non-negative `v ≤ 0x7F` is the raw byte; other non-negatives take the
first row whose maximum is `≥ v`. -/
def specIntegerEncoding (v : Int) : List Nat :=
  if v < 0 then
    if -32 ≤ v then
      [0xE0 ||| (v + 32).toNat]
    else
      match specIntRows.find? (fun row => decide (row.1 ≤ v)) with
      | some (_, p, w) => p :: specBigEndian w ((v % (2 ^ (8 * w) : Int)).toNat)
      | none => []
  else
    let u := v.toNat
    if u ≤ 0x7F then
      [u]
    else
      match specUintRows.find? (fun row => decide (u ≤ row.1)) with
      | some (_, p, w) => p :: specBigEndian w u
      | none => []

/-! ## URL parser (src/datadog/http_client.cpp) -/

/-- The `"://"` separator searched for by `HTTPClient::URL::parse`. -/
def sepChars : List Char := [':', '/', '/']

/-- `std::search(input.begin(), input.end(), separator.begin(),
separator.end())`: locate the first occurrence of `"://"`.  Returns the
text before the first occurrence and the text after it, or `none` when
the separator does not occur (`after_scheme == input.end()`). -/
def findSeparator : List Char → Option (List Char × List Char)
  | [] => none
  | c :: rest =>
    if c = ':' ∧ rest.take 2 = ['/', '/'] then
      some ([], rest.drop 2)
    else
      match findSeparator rest with
      | some (before, after) => some (c :: before, after)
      | none => none

/-- Error codes of `HTTPClient::URL::parse`.  The source attaches a
human-readable message to each `Error`; only the code is modelled here
(the claims are about codes, schemes, authorities and paths). -/
inductive UrlError where
  | URL_MISSING_SEPARATOR
  | URL_UNSUPPORTED_SCHEME
  | URL_UNIX_DOMAIN_SOCKET_PATH_NOT_ABSOLUTE
deriving DecidableEq, Repr

/-- `HTTPClient::URL`: scheme, authority and path, as declared in
`http_client.h` and aggregate-initialised in that order by the parser. -/
structure URL where
  scheme : List Char
  authority : List Char
  path : List Char
deriving DecidableEq, Repr

/-- The `supported[]` array of schemes in `HTTPClient::URL::parse`. -/
def supportedSchemes : List (List Char) :=
  ["http".data, "https".data, "unix".data, "http+unix".data, "https+unix".data]

/-- The three schemes of the `scheme == "unix" || scheme == "http+unix"
|| scheme == "https+unix"` test. -/
def unixSchemes : List (List Char) :=
  ["unix".data, "http+unix".data, "https+unix".data]

/-- `HTTPClient::URL::parse(input)`.  Line by line: missing `"://"` is
`URL_MISSING_SEPARATOR`; a scheme not in `supported[]` is
`URL_UNSUPPORTED_SCHEME`; for a unix-family scheme, an
`authority_and_path` that is empty or does not start with `'/'` is
`URL_UNIX_DOMAIN_SOCKET_PATH_NOT_ABSOLUTE`, otherwise the whole
remainder is the authority and the path is empty; for http/https the
authority is the remainder up to the first `'/'`
(`std::find(..., '/')`) and the path is the rest. -/
def URL.parse (input : List Char) : Except UrlError URL :=
  match findSeparator input with
  | none => .error .URL_MISSING_SEPARATOR
  | some (scheme, authorityAndPath) =>
    if scheme ∉ supportedSchemes then
      .error .URL_UNSUPPORTED_SCHEME
    else if scheme ∈ unixSchemes then
      if authorityAndPath = [] ∨ authorityAndPath.head? ≠ some '/' then
        .error .URL_UNIX_DOMAIN_SOCKET_PATH_NOT_ABSOLUTE
      else
        .ok ⟨scheme, authorityAndPath, []⟩
    else
      .ok ⟨scheme, authorityAndPath.takeWhile (fun c => c ≠ '/'),
           authorityAndPath.dropWhile (fun c => c ≠ '/')⟩

/-! ## Span handle (src/datadog/span.cpp)

`span_data.h` / `span_data.cpp` are not part of the sources under
review, so `SpanData`, `SpanDefaults`, `SpanConfig` and
`SpanData::apply_config` are modelled from the spec (section 3 "Data
model" and section 4.5 "Span Handle"); every operation below them is
translated from `span.cpp`. -/

/-- The tag map (`std::unordered_map<std::string, std::string>`),
modelled as an association list with unique keys; `find`, `erase` and
`insert_or_assign` below have the map's key-based semantics. -/
abbrev TagMap := List (String × String)

/-- `tags.find(name)` followed by the end-check: the value stored under
the key, if any. -/
def mapFind : TagMap → String → Option String
  | [], _ => none
  | (k2, v) :: rest, k => if k2 = k then some v else mapFind rest k

/-- `tags.erase(name)`: remove the entry with the key. -/
def mapErase : TagMap → String → TagMap
  | [], _ => []
  | (k2, v) :: rest, k =>
    if k2 = k then mapErase rest k else (k2, v) :: mapErase rest k

/-- `tags.insert_or_assign(name, value)`: replace the value under the
key if present, otherwise insert the pair. -/
def mapInsertOrAssign : TagMap → String → String → TagMap
  | [], k, v => [(k, v)]
  | (k2, v2) :: rest, k, v =>
    if k2 = k then (k2, v) :: rest else (k2, v2) :: mapInsertOrAssign rest k v

/-- `starts_with(subject, prefix)` from `span.cpp`: `false` when the
sought text is longer than the subject; otherwise
`std::mismatch(subject.begin(), subject.end(), prefix.begin()).second ==
prefix.end()`, i.e. the elementwise test that the sought text heads the
subject, which is `List.isPrefixOf`. -/
def starts_with (subject pre : List Char) : Bool :=
  if pre.length > subject.length then false
  else pre.isPrefixOf subject

/-- `is_internal_tag(tag_name)`: does the name start with `"_dd."`. -/
def is_internal_tag (tag_name : String) : Bool :=
  starts_with tag_name.data ['_', 'd', 'd', '.']

/-- A `TimePoint`: wall-clock time plus monotonic tick (spec: "start
(wall-time + monotonic tick)").  Times are ticks as integers. -/
structure TimePoint where
  wall : Int
  tick : Int
deriving DecidableEq, Repr

/-- Modelled from the spec: `SpanData` (its header is not in src/) with
the attributes the claims touch — ids, the merged naming fields, start,
duration, error flag and the string tag map.  The spec's remaining
attributes (origin, numeric_tags, type) play no role in any claim and
are omitted from the model. -/
structure SpanData where
  trace_id : Nat
  span_id : Nat
  parent_id : Nat
  service : String
  service_type : String
  name : String
  resource : String
  start : TimePoint
  duration : Int
  error : Bool
  tags : TagMap
deriving DecidableEq, Repr

/-- Modelled from the spec: the segment's `SpanDefaults` (not in src/),
the default values merged into each new span. -/
structure SpanDefaults where
  service : String
  service_type : String
  name : String
  resource : String
  tags : TagMap
deriving DecidableEq, Repr

/-- Modelled from the spec: `SpanConfig` — "name, service, resource,
type, tags, start (opt); transient; merged with segment defaults when
creating a Span". -/
structure SpanConfig where
  name : Option String
  service : Option String
  resource : Option String
  service_type : Option String
  tags : TagMap
  start : Option TimePoint
deriving DecidableEq, Repr

/-- Modelled from the spec: `SpanData::apply_config(defaults, config,
clock)` (span_data.cpp is not in src/): each field specified by the
config overrides the default; `start` comes from the config when given,
else from the clock; ids are left for the caller to fill in. -/
def SpanData.apply_config (defaults : SpanDefaults) (config : SpanConfig)
    (now : TimePoint) : SpanData :=
  { trace_id := 0, span_id := 0, parent_id := 0,
    service := config.service.getD defaults.service,
    service_type := config.service_type.getD defaults.service_type,
    name := config.name.getD defaults.name,
    resource := config.resource.getD defaults.resource,
    start := config.start.getD now,
    duration := 0, error := false,
    tags := defaults.tags ++ config.tags }

/-- The segment state the span operations touch: the defaults used for
new spans and the ordered sequence of registered `SpanData`
(`TraceSegment::spans_`). -/
structure TraceSegmentState where
  defaults : SpanDefaults
  spans : List SpanData
deriving DecidableEq, Repr

/-- `TraceSegment::register_span(span)`: appends to the ordered
sequence. -/
def TraceSegment.register_span (seg : TraceSegmentState) (d : SpanData) :
    TraceSegmentState :=
  { seg with spans := seg.spans ++ [d] }

/-- The `Span` handle: `trace_segment_` is a nullable pointer (null
exactly for a moved-from handle), `data_` the referenced `SpanData`,
`end_time_` the optional explicitly set end time (a monotonic tick).
The injected id generator and clock are passed to the operations that
use them. -/
structure Span where
  trace_segment : Option Unit
  data : SpanData
  end_time : Option Int
deriving DecidableEq, Repr

/-- `Span::set_tag(name, value)`: writes the tag unless the key is
reserved. -/
def Span.set_tag (s : Span) (name value : String) : Span :=
  if is_internal_tag name then s
  else { s with data := { s.data with
           tags := mapInsertOrAssign s.data.tags name value } }

/-- `Span::remove_tag(name)`: erases the tag unless the key is
reserved. -/
def Span.remove_tag (s : Span) (name : String) : Span :=
  if is_internal_tag name then s
  else { s with data := { s.data with tags := mapErase s.data.tags name } }

/-- `Span::lookup_tag(name)`: `nullopt` for a reserved key, else the
stored value if any. -/
def Span.lookup_tag (s : Span) (name : String) : Option String :=
  if is_internal_tag name then none
  else mapFind s.data.tags name

/-- `Span::set_error(bool)`: sets the flag; clearing it also erases the
`"error.msg"` tag. -/
def Span.set_error_bool (s : Span) (is_error : Bool) : Span :=
  if is_error then
    { s with data := { s.data with error := true } }
  else
    { s with data := { s.data with
        error := false
        tags := mapErase s.data.tags "error.msg" } }

/-- `Span::set_error(std::string_view message)`: sets the flag and
stores the message under `"error.msg"`. -/
def Span.set_error_msg (s : Span) (message : String) : Span :=
  { s with data := { s.data with
      error := true
      tags := mapInsertOrAssign s.data.tags "error.msg" message } }

/-- The observable effects of `Span::~Span()`: the write of
`data_->duration` and the `trace_segment_->span_finished()` call, in
program order. -/
inductive SpanEvent where
  | write_duration (d : Int)
  | span_finished
deriving DecidableEq, Repr

/-- `Span::~Span()`: a moved-from handle (null `trace_segment_`) does
nothing; otherwise the duration is `*end_time_ - data_->start.tick`
when an end time was set, else `clock_().tick - data_->start.tick`, and
then `span_finished` is called.  `now` is the `TimePoint` the injected
clock returns. -/
def Span.destroy (s : Span) (now : TimePoint) : List SpanEvent :=
  match s.trace_segment with
  | none => []
  | some _ =>
    match s.end_time with
    | some e => [.write_duration (e - s.data.start.tick), .span_finished]
    | none => [.write_duration (now.tick - s.data.start.tick), .span_finished]

/-- `Span::create_child(config)`: builds a new `SpanData` via
`apply_config`, overwrites `trace_id` with the parent's trace id,
`parent_id` with the parent's span id and `span_id` with a fresh id
from the injected generator, registers it with the segment, and only
then returns the child handle.  `fresh_id` is the value
`generate_span_id_()` returns and `now` the clock value `apply_config`
consumes. -/
def Span.create_child (s : Span) (seg : TraceSegmentState) (config : SpanConfig)
    (fresh_id : Nat) (now : TimePoint) : Span × TraceSegmentState :=
  let base := SpanData.apply_config seg.defaults config now
  let child_data := { base with
    trace_id := s.data.trace_id
    parent_id := s.data.span_id
    span_id := fresh_id }
  let seg2 := TraceSegment.register_span seg child_data
  ({ trace_segment := some (), data := child_data, end_time := none }, seg2)

/-! ### Concrete sample spans used by witnesses -/

def sampleSpan : Span :=
  { trace_segment := some (),
    data := { trace_id := 1, span_id := 2, parent_id := 0, service := "svc",
              service_type := "web", name := "op", resource := "res",
              start := ⟨100, 4⟩, duration := 0, error := false,
              tags := [("_dd.x", "v"), ("k", "w")] },
    end_time := some 10 }

def movedFromSpan : Span :=
  { trace_segment := none,
    data := sampleSpan.data,
    end_time := none }

/-! ## C1 and C2 theorems -/

/-- C1: for every 64-bit integer value `v` (any value representable as
`std::int64_t` or `std::uint64_t`), `pack_integer` — dispatching to
`pack_negative` for `v < 0` and to `pack_nonnegative` otherwise —
appends to the buffer exactly the encoding chosen by the spec's
narrowest-first decision table (`specIntegerEncoding`): negative
`v ≥ -32` is the single byte `0xE0 ||| (v+32)`; other negatives are
INT8/16/32/64 (`0xD0..0xD3`) with big-endian payload, first row whose
minimum is `≤ v`; non-negative `v ≤ 0x7F` is the raw byte; other
non-negatives are UINT8/16/32/64 (`0xCC..0xCF`), first row whose
maximum is `≥ v`.  In particular `0x7F ↦ [0x7F]`, `128 ↦ [0xCC, 0x80]`,
`-1 ↦ [0xFF]`, `-33 ↦ [0xD0, 0xDF]`. -/
theorem c1_pack_integer_decision_table :
    (∀ (buffer : List Nat) (v : Int),
        -9223372036854775808 ≤ v → v < 18446744073709551616 →
        pack_integer buffer v = buffer ++ specIntegerEncoding v) ∧
    pack_integer [] 0x7F = [0x7F] ∧
    pack_integer [] 128 = [0xCC, 0x80] ∧
    pack_integer [] (-1) = [0xFF] ∧
    pack_integer [] (-33) = [0xD0, 0xDF] := by
  refine ⟨?_, by decide, by decide, by decide, by decide⟩
  intro buffer v h1 h2
  by_cases hneg : v < 0
  · by_cases hc1 : -32 ≤ v
    · simp only [pack_integer, specIntegerEncoding, pack_negative, hneg, hc1,
        if_true, ite_true, if_pos]
      have h : (v + 32) % 256 = v + 32 := Int.emod_eq_of_lt (by omega) (by omega)
      rw [h]
    · by_cases hc2 : -128 ≤ v
      all_goals by_cases hc3 : -32768 ≤ v
      all_goals by_cases hc4 : -2147483648 ≤ v
      all_goals (
        first
        | exact absurd hc3 (by omega)
        | exact absurd hc4 (by omega)
        | (have hc5 : -9223372036854775808 ≤ v := h1
           simp only [pack_integer, specIntegerEncoding, pack_negative, specIntRows,
             specBigEndian, push_number_big_endian, List.find?_cons, hneg, hc1, hc2, hc3,
             hc4, hc5, decide_True, decide_False, if_true, if_false, ite_true, ite_false]
           try norm_num [List.range_succ, Nat.shiftRight_eq_div_pow]
           all_goals omega))
  · by_cases hc1 : v.toNat ≤ 127
    · simp only [pack_integer, specIntegerEncoding, pack_nonnegative, hneg,
        if_false, ite_false, hc1, if_true, ite_true]
      have h : v.toNat % 256 = v.toNat := Nat.mod_eq_of_lt (by omega)
      rw [h]
    · by_cases hc2 : v.toNat ≤ 255
      all_goals by_cases hc3 : v.toNat ≤ 65535
      all_goals by_cases hc4 : v.toNat ≤ 4294967295
      all_goals (
        first
        | exact absurd hc3 (by omega)
        | exact absurd hc4 (by omega)
        | (have hc5 : v.toNat ≤ 18446744073709551615 := by omega
           simp only [pack_integer, specIntegerEncoding, pack_nonnegative, specUintRows,
             specBigEndian, push_number_big_endian, List.find?_cons, hneg, hc1, hc2, hc3,
             hc4, hc5, decide_True, decide_False, if_true, if_false, ite_true, ite_false]
           try norm_num [List.range_succ, Nat.shiftRight_eq_div_pow]
           all_goals omega))

/-- C1 witness: the decision-table equality evaluated at `v = -33`. -/
theorem c1_pack_integer_decision_table_witness :
    pack_integer [] (-33) = [] ++ specIntegerEncoding (-33) :=
  c1_pack_integer_decision_table.1 [] (-33) (by decide) (by decide)

/-- C2: `pack_str`, `pack_bin`, `pack_array` and `pack_map` throw the
overflow `std::out_of_range` (second component `some message`) exactly
when the size exceeds `2^32 - 1`; the message is the
`make_overflow_message` string; and whenever they throw, the buffer is
returned unchanged (no bytes were appended before the throw).  The
threshold is exact: size `4294967295` succeeds and `4294967296` fails. -/
theorem c2_pack_overflow_threshold :
    ∀ (buffer range : List Nat) (n : Nat),
      (((pack_str buffer range).2 = none ↔ range.length ≤ 4294967295) ∧
        ((pack_str buffer range).1 = buffer ∨ (pack_str buffer range).2 = none) ∧
        ((pack_str buffer range).2 = none ∨
          (pack_str buffer range).2 =
            some (make_overflow_message "string" range.length 4294967295))) ∧
      (((pack_bin buffer range).2 = none ↔ range.length ≤ 4294967295) ∧
        ((pack_bin buffer range).1 = buffer ∨ (pack_bin buffer range).2 = none) ∧
        ((pack_bin buffer range).2 = none ∨
          (pack_bin buffer range).2 =
            some (make_overflow_message "binary" range.length 4294967295))) ∧
      (((pack_array buffer n).2 = none ↔ n ≤ 4294967295) ∧
        ((pack_array buffer n).1 = buffer ∨ (pack_array buffer n).2 = none) ∧
        ((pack_array buffer n).2 = none ∨
          (pack_array buffer n).2 =
            some (make_overflow_message "array" n 4294967295))) ∧
      (((pack_map buffer n).2 = none ↔ n ≤ 4294967295) ∧
        ((pack_map buffer n).1 = buffer ∨ (pack_map buffer n).2 = none) ∧
        ((pack_map buffer n).2 = none ∨
          (pack_map buffer n).2 =
            some (make_overflow_message "map" n 4294967295))) ∧
      ((pack_array buffer 4294967295).2 = none ∧
        (pack_array buffer 4294967296).2 ≠ none ∧
        (pack_map buffer 4294967295).2 = none ∧
        (pack_map buffer 4294967296).2 ≠ none) := by
  intro buffer range n
  refine ⟨?_, ?_, ?_, ?_, ?_⟩
  · simp only [pack_str]
    split_ifs <;> simp_all <;> omega
  · simp only [pack_bin]
    split_ifs <;> simp_all <;> omega
  · simp only [pack_array]
    split_ifs <;> simp_all <;> omega
  · simp only [pack_map]
    split_ifs <;> simp_all <;> omega
  · simp [pack_array, pack_map]

/-! ## C9 theorems -/

/-- C9 counterexample: the claim asserts that for EVERY `t`, `actual`,
`max` the message does not contain the decimal rendering of `max`.  At
`t = "t"`, `actual = 1`, `max = 1` the decimal rendering of `max` is
`"1"`, which does occur in the message (it is the rendering of
`actual`), so the claim as stated is false at this input. -/
theorem c9_overflow_message_counterexample :
    (Nat.repr 1).data <:+: (make_overflow_message "t" 1 1).data := by
  decide

/-- C9 amended: `make_overflow_message` always contains the decimal
rendering of `actual`; it depends on `max` only through the single
appended character `max % 256` (so the function never renders `max` in
decimal — the line `message += max;` appends one `char`); and for the
`2^32 - 1` limit that character is the byte `0xFF`. -/
theorem c9_overflow_message_amended :
    (∀ (t : String) (a m : Nat),
        (Nat.repr a).data <:+: (make_overflow_message t a m).data) ∧
    (∀ (t : String) (a m1 m2 : Nat), m1 % 256 = m2 % 256 →
        make_overflow_message t a m1 = make_overflow_message t a m2) ∧
    (∀ (t : String) (a : Nat),
        Char.ofNat 255 ∈ (make_overflow_message t a 4294967295).data) := by
  refine ⟨?_, ?_, ?_⟩
  · intro t a m
    refine ⟨("Cannot msgpack encode " ++ t ++ " of size ").data,
      (", which exceeds the protocol maximum of " ++
        String.singleton (Char.ofNat (m % 256)) ++ ".").data, ?_⟩
    simp [make_overflow_message, String.data_append]
  · intro t a m1 m2 h
    simp [make_overflow_message, h]
  · intro t a
    simp [make_overflow_message, String.data_append]

/-- C9 witness: the amended statement evaluated at concrete inputs; the
`max`-dependence-through-`max % 256` part is applied at `m1 = 256`,
`m2 = 0`. -/
theorem c9_overflow_message_amended_witness :
    ((Nat.repr 7).data <:+: (make_overflow_message "map" 7 3).data) ∧
    make_overflow_message "x" 3 256 = make_overflow_message "x" 3 0 ∧
    Char.ofNat 255 ∈ (make_overflow_message "array" 2 4294967295).data :=
  ⟨c9_overflow_message_amended.1 "map" 7 3,
   c9_overflow_message_amended.2.1 "x" 3 256 0 (by decide),
   c9_overflow_message_amended.2.2 "array" 2⟩

/-! ## C3: characterization of `HTTPClient::URL::parse` -/

/-- A list whose first two elements are `'/', '/'` is
`'/' :: '/' :: (drop 2)`. -/
theorem take_two_shape {rest : List Char} (ht : rest.take 2 = ['/', '/']) :
    rest = '/' :: '/' :: rest.drop 2 := by
  cases rest with
  | nil => simp at ht
  | cons a t =>
    cases t with
    | nil => simp at ht
    | cons b t2 =>
      simp [List.take] at ht
      obtain ⟨ha, hb⟩ := ht
      subst ha; subst hb
      rfl

/-- When `"://"` does not occur in the input, the search fails. -/
theorem findSeparator_eq_none :
    ∀ (l : List Char), ¬ sepChars <:+: l → findSeparator l = none := by
  intro l
  induction l with
  | nil => intro _; rfl
  | cons c rest ih =>
    intro h
    have hck : ¬ (c = ':' ∧ rest.take 2 = ['/', '/']) := by
      rintro ⟨hc, ht⟩
      apply h
      refine ⟨[], rest.drop 2, ?_⟩
      subst hc
      have h2 := take_two_shape ht
      simp [sepChars]
      exact h2.symm
    have h2 : ¬ sepChars <:+: rest := fun hi => h (List.infix_cons hi)
    simp only [findSeparator, if_neg hck, ih h2]

/-- When `"://"` does occur in the input, the search succeeds. -/
theorem findSeparator_ne_none :
    ∀ (l : List Char), sepChars <:+: l → findSeparator l ≠ none := by
  intro l
  induction l with
  | nil =>
    rintro ⟨s, t, hst⟩ _
    simp [sepChars] at hst
  | cons c rest ih =>
    rintro ⟨s, t, hst⟩ hnone
    by_cases hck : c = ':' ∧ rest.take 2 = ['/', '/']
    · simp only [findSeparator, if_pos hck] at hnone
      exact Option.noConfusion hnone
    · have h2 : sepChars <:+: rest := by
        cases s with
        | nil =>
          simp [sepChars] at hst
          obtain ⟨hc, hrest⟩ := hst
          exact absurd ⟨hc.symm, by rw [← hrest]; rfl⟩ hck
        | cons a s2 =>
          refine ⟨s2, t, ?_⟩
          simpa using congrArg List.tail hst
      simp only [findSeparator, if_neg hck] at hnone
      cases hfr : findSeparator rest with
      | some p => rw [hfr] at hnone; simp at hnone
      | none => exact ih h2 hfr

/-- The search splits the input at the FIRST occurrence of `"://"`:
for any decomposition whose lead part contains no separator, the lead
part is the scheme and the tail the remainder. -/
theorem findSeparator_append : ∀ (before post : List Char), ¬ sepChars <:+: before →
    findSeparator (before ++ sepChars ++ post) = some (before, post) := by
  intro before
  induction before with
  | nil =>
    intro post _
    show findSeparator (':' :: '/' :: '/' :: post) = some ([], post)
    simp [findSeparator]
  | cons a before2 ih =>
    intro post h
    have hck : ¬ (a = ':' ∧ (before2 ++ sepChars ++ post).take 2 = ['/', '/']) := by
      rintro ⟨ha, ht⟩
      cases before2 with
      | nil => simp [sepChars] at ht
      | cons b before3 =>
        cases before3 with
        | nil => simp [sepChars] at ht
        | cons b2 before4 =>
          simp [List.take] at ht
          obtain ⟨hb, hb2⟩ := ht
          apply h
          refine ⟨[], before4, ?_⟩
          simp [sepChars, ha, hb, hb2]
    have h2 : ¬ sepChars <:+: before2 := fun hi => h (List.infix_cons hi)
    show findSeparator (a :: (before2 ++ sepChars ++ post)) = some (a :: before2, post)
    simp only [findSeparator, if_neg hck, ih post h2]

/-- C3: `HTTPClient::URL::parse` is a total function into
`Expected<URL>` with exactly the case analysis of the claim: it returns
`URL_MISSING_SEPARATOR` iff the input contains no `"://"`; for an input
split at the first `"://"` into `before ++ "://" ++ post`, it returns
`URL_UNSUPPORTED_SCHEME` when `before` is not a supported scheme; for a
unix-family scheme it returns
`URL_UNIX_DOMAIN_SOCKET_PATH_NOT_ABSOLUTE` exactly when `post` is empty
or does not start with `'/'` and otherwise
`{scheme, authority = post, path = ""}`; for http/https it returns
`{scheme, authority = post up to the first '/', path = the rest}`.
The three concrete examples of the claim are included. -/
theorem c3_url_parse :
    (∀ input : List Char,
        URL.parse input = .error .URL_MISSING_SEPARATOR ↔ ¬ sepChars <:+: input) ∧
    (∀ before post : List Char, ¬ sepChars <:+: before →
        before ∉ supportedSchemes →
        URL.parse (before ++ sepChars ++ post) = .error .URL_UNSUPPORTED_SCHEME) ∧
    (∀ before post : List Char, ¬ sepChars <:+: before →
        before ∈ unixSchemes → (post = [] ∨ post.head? ≠ some '/') →
        URL.parse (before ++ sepChars ++ post) =
          .error .URL_UNIX_DOMAIN_SOCKET_PATH_NOT_ABSOLUTE) ∧
    (∀ before post : List Char, ¬ sepChars <:+: before →
        before ∈ unixSchemes → post.head? = some '/' →
        URL.parse (before ++ sepChars ++ post) = .ok ⟨before, post, []⟩) ∧
    (∀ before post : List Char, ¬ sepChars <:+: before →
        before ∈ supportedSchemes → before ∉ unixSchemes →
        URL.parse (before ++ sepChars ++ post) =
          .ok ⟨before, post.takeWhile (fun c => c ≠ '/'),
               post.dropWhile (fun c => c ≠ '/')⟩) ∧
    URL.parse "http://localhost:8126".data =
      .ok ⟨"http".data, "localhost:8126".data, []⟩ ∧
    URL.parse "unix:///var/run/datadog/apm.sock".data =
      .ok ⟨"unix".data, "/var/run/datadog/apm.sock".data, []⟩ ∧
    URL.parse "ftp://x".data = .error .URL_UNSUPPORTED_SCHEME := by
  refine ⟨?_, ?_, ?_, ?_, ?_, by rfl, by rfl, by rfl⟩
  · intro input
    constructor
    · intro hparse hinf
      have hne := findSeparator_ne_none input hinf
      cases hfs : findSeparator input with
      | none => exact hne hfs
      | some p =>
        obtain ⟨scheme, rest⟩ := p
        simp only [URL.parse, hfs] at hparse
        split_ifs at hparse <;> simp_all
    · intro hni
      simp only [URL.parse, findSeparator_eq_none input hni]
  · intro before post h hmem
    simp only [URL.parse, findSeparator_append before post h, if_pos hmem]
  · intro before post h hmem hpost
    have hsup : before ∈ supportedSchemes :=
      (by decide : ∀ x ∈ unixSchemes, x ∈ supportedSchemes) before hmem
    simp only [URL.parse, findSeparator_append before post h]
    rw [if_neg (by simp [hsup]), if_pos hmem, if_pos hpost]
  · intro before post h hmem hpost
    have hsup : before ∈ supportedSchemes :=
      (by decide : ∀ x ∈ unixSchemes, x ∈ supportedSchemes) before hmem
    have hcond : ¬ (post = [] ∨ post.head? ≠ some '/') := by
      rintro (h1 | h1)
      · subst h1; simp at hpost
      · exact h1 hpost
    simp only [URL.parse, findSeparator_append before post h]
    rw [if_neg (by simp [hsup]), if_pos hmem, if_neg hcond]
  · intro before post h hsup hnunix
    simp only [URL.parse, findSeparator_append before post h]
    rw [if_neg (by simp [hsup]), if_neg hnunix]

/-- C3 witness: the conditional parts of the characterization applied
at concrete schemes and remainders. -/
theorem c3_url_parse_witness :
    URL.parse ("ftp".data ++ sepChars ++ "x".data) = .error .URL_UNSUPPORTED_SCHEME ∧
    URL.parse ("unix".data ++ sepChars ++ "relative".data) =
      .error .URL_UNIX_DOMAIN_SOCKET_PATH_NOT_ABSOLUTE ∧
    URL.parse ("unix".data ++ sepChars ++ "/a".data) = .ok ⟨"unix".data, "/a".data, []⟩ ∧
    URL.parse ("http".data ++ sepChars ++ "h/p".data) =
      .ok ⟨"http".data, ("h/p".data).takeWhile (fun c => c ≠ '/'),
           ("h/p".data).dropWhile (fun c => c ≠ '/')⟩ :=
  ⟨c3_url_parse.2.1 _ _ (by decide) (by decide),
   c3_url_parse.2.2.1 _ _ (by decide) (by decide) (Or.inr (by decide)),
   c3_url_parse.2.2.2.1 _ _ (by decide) (by decide) (by decide),
   c3_url_parse.2.2.2.2.1 _ _ (by decide) (by decide) (by decide)⟩

/-! ### Tag-map lemmas -/

theorem mapFind_mapErase_self (m : TagMap) (k : String) :
    mapFind (mapErase m k) k = none := by
  induction m with
  | nil => rfl
  | cons p rest ih =>
    obtain ⟨k2, v⟩ := p
    by_cases h : k2 = k
    · simp [mapErase, h, ih]
    · simp [mapErase, mapFind, h, ih]

theorem mapFind_mapErase_other (m : TagMap) (k k2 : String) (h : k2 ≠ k) :
    mapFind (mapErase m k) k2 = mapFind m k2 := by
  induction m with
  | nil => rfl
  | cons p rest ih =>
    obtain ⟨k3, v⟩ := p
    by_cases h3 : k3 = k
    · subst h3
      simp [mapErase, mapFind, Ne.symm h, ih]
    · by_cases h4 : k3 = k2
      · simp [mapErase, mapFind, h3, h4, h, ih]
      · simp [mapErase, mapFind, h3, h4, h, ih]

theorem mapFind_mapInsertOrAssign_self (m : TagMap) (k v : String) :
    mapFind (mapInsertOrAssign m k v) k = some v := by
  induction m with
  | nil => simp [mapInsertOrAssign, mapFind]
  | cons p rest ih =>
    obtain ⟨k2, v2⟩ := p
    by_cases h : k2 = k
    · simp [mapInsertOrAssign, mapFind, h]
    · simp [mapInsertOrAssign, mapFind, h, ih]

theorem mapFind_mapInsertOrAssign_other (m : TagMap) (k k2 v : String) (h : k2 ≠ k) :
    mapFind (mapInsertOrAssign m k v) k2 = mapFind m k2 := by
  induction m with
  | nil => simp [mapInsertOrAssign, mapFind, Ne.symm h]
  | cons p rest ih =>
    obtain ⟨k3, v3⟩ := p
    by_cases h3 : k3 = k
    · subst h3
      simp [mapInsertOrAssign, mapFind, Ne.symm h, ih]
    · simp [mapInsertOrAssign, mapFind, h3, ih]

/-! ### Span-handle claim theorems (C4 - C8, C10) -/

theorem c4_reserved_tags_ignored :
    ∀ (s : Span) (name value : String), is_internal_tag name = true →
      Span.set_tag s name value = s ∧
      Span.remove_tag s name = s ∧
      Span.lookup_tag s name = none := by
  intro s name value h
  refine ⟨?_, ?_, ?_⟩ <;>
    simp [Span.set_tag, Span.remove_tag, Span.lookup_tag, h]

theorem c4_reserved_tags_ignored_witness :
    mapFind sampleSpan.data.tags "_dd.x" = some "v" ∧
    Span.set_tag sampleSpan "_dd.x" "z" = sampleSpan ∧
    Span.remove_tag sampleSpan "_dd.x" = sampleSpan ∧
    Span.lookup_tag sampleSpan "_dd.x" = none :=
  ⟨rfl,
   (c4_reserved_tags_ignored sampleSpan "_dd.x" "z" (by decide)).1,
   (c4_reserved_tags_ignored sampleSpan "_dd.x" "z" (by decide)).2.1,
   (c4_reserved_tags_ignored sampleSpan "_dd.x" "z" (by decide)).2.2⟩

theorem c5_destructor_duration :
    ∀ (s : Span) (now : TimePoint), s.trace_segment ≠ none →
      (∀ e : Int, s.end_time = some e →
        Span.destroy s now =
          [.write_duration (e - s.data.start.tick), .span_finished]) ∧
      (s.end_time = none →
        Span.destroy s now =
          [.write_duration (now.tick - s.data.start.tick), .span_finished]) := by
  intro s now hseg
  cases hts : s.trace_segment with
  | none => exact absurd hts hseg
  | some u =>
    constructor
    · intro e he
      simp [Span.destroy, hts, he]
    · intro he
      simp [Span.destroy, hts, he]

theorem c5_destructor_duration_witness :
    Span.destroy sampleSpan ⟨200, 30⟩ =
      [.write_duration (10 - sampleSpan.data.start.tick), .span_finished] :=
  (c5_destructor_duration sampleSpan ⟨200, 30⟩ (by decide)).1 10 rfl

theorem c6_create_child :
    ∀ (s : Span) (seg : TraceSegmentState) (config : SpanConfig)
      (fid : Nat) (now : TimePoint),
      ((Span.create_child s seg config fid now).1.data.trace_id = s.data.trace_id) ∧
      ((Span.create_child s seg config fid now).1.data.parent_id = s.data.span_id) ∧
      ((Span.create_child s seg config fid now).1.data.span_id = fid) ∧
      ((Span.create_child s seg config fid now).1.data.service =
        (SpanData.apply_config seg.defaults config now).service) ∧
      ((Span.create_child s seg config fid now).1.data.service_type =
        (SpanData.apply_config seg.defaults config now).service_type) ∧
      ((Span.create_child s seg config fid now).1.data.name =
        (SpanData.apply_config seg.defaults config now).name) ∧
      ((Span.create_child s seg config fid now).1.data.resource =
        (SpanData.apply_config seg.defaults config now).resource) ∧
      ((Span.create_child s seg config fid now).1.data.start =
        (SpanData.apply_config seg.defaults config now).start) ∧
      ((Span.create_child s seg config fid now).1.data.tags =
        (SpanData.apply_config seg.defaults config now).tags) ∧
      ((Span.create_child s seg config fid now).2.spans =
        seg.spans ++ [(Span.create_child s seg config fid now).1.data]) ∧
      (∀ (seg2 : TraceSegmentState) (config2 : SpanConfig) (fid2 : Nat)
         (now2 : TimePoint),
        (Span.create_child (Span.create_child s seg config fid now).1
            seg2 config2 fid2 now2).1.data.trace_id = s.data.trace_id) := by
  intro s seg config fid now
  exact ⟨rfl, rfl, rfl, rfl, rfl, rfl, rfl, rfl, rfl, rfl, fun _ _ _ _ => rfl⟩

theorem c7_set_error :
    ∀ (s : Span) (message other : String),
      ((Span.set_error_bool s false).data.error = false) ∧
      (mapFind (Span.set_error_bool s false).data.tags "error.msg" = none) ∧
      (other ≠ "error.msg" →
        mapFind (Span.set_error_bool s false).data.tags other =
          mapFind s.data.tags other) ∧
      ((Span.set_error_bool s true).data.error = true) ∧
      ((Span.set_error_bool s true).data.tags = s.data.tags) ∧
      ((Span.set_error_msg s message).data.error = true) ∧
      (mapFind (Span.set_error_msg s message).data.tags "error.msg" = some message) ∧
      (other ≠ "error.msg" →
        mapFind (Span.set_error_msg s message).data.tags other =
          mapFind s.data.tags other) := by
  intro s message other
  refine ⟨?_, ?_, ?_, ?_, ?_, ?_, ?_, ?_⟩
  · simp [Span.set_error_bool]
  · simp [Span.set_error_bool, mapFind_mapErase_self]
  · intro h
    simp [Span.set_error_bool, mapFind_mapErase_other _ _ _ h]
  · simp [Span.set_error_bool]
  · simp [Span.set_error_bool]
  · simp [Span.set_error_msg]
  · simp [Span.set_error_msg, mapFind_mapInsertOrAssign_self]
  · intro h
    simp [Span.set_error_msg, mapFind_mapInsertOrAssign_other _ _ _ _ h]

theorem c7_set_error_witness :
    mapFind (Span.set_error_bool sampleSpan false).data.tags "k" =
      mapFind sampleSpan.data.tags "k" ∧
    mapFind (Span.set_error_msg sampleSpan "boom").data.tags "k" =
      mapFind sampleSpan.data.tags "k" :=
  ⟨(c7_set_error sampleSpan "boom" "k").2.2.1 (by decide),
   (c7_set_error sampleSpan "boom" "k").2.2.2.2.2.2.2 (by decide)⟩

theorem c8_moved_from_destroy :
    ∀ (s : Span) (now : TimePoint), s.trace_segment = none →
      Span.destroy s now = [] := by
  intro s now h
  simp [Span.destroy, h]

theorem c8_moved_from_destroy_witness :
    Span.destroy movedFromSpan ⟨0, 0⟩ = [] :=
  c8_moved_from_destroy movedFromSpan ⟨0, 0⟩ rfl

theorem isPrefixOf_iff_take :
    ∀ (pre subject : List Char),
      pre.isPrefixOf subject = true ↔ subject.take pre.length = pre := by
  intro pre
  induction pre with
  | nil => intro subject; simp [List.isPrefixOf]
  | cons a t ih =>
    intro subject
    cases subject with
    | nil => simp [List.isPrefixOf]
    | cons b t2 =>
      simp only [List.isPrefixOf, Bool.and_eq_true, beq_iff_eq, ih t2,
        List.length_cons, List.take_succ_cons, List.cons.injEq]
      constructor
      · rintro ⟨h1, h2⟩
        exact ⟨h1.symm, h2⟩
      · rintro ⟨h1, h2⟩
        exact ⟨h1.symm, h2⟩

theorem starts_with_iff_take (subject pre : List Char) :
    starts_with subject pre = true ↔ subject.take pre.length = pre := by
  unfold starts_with
  split_ifs with hlen
  · simp only [Bool.false_eq_true, false_iff]
    intro h
    have hl := congrArg List.length h
    simp [List.length_take] at hl
    omega
  · exact isPrefixOf_iff_take pre subject

theorem c10_internal_tag_exact :
    (∀ name : String,
      is_internal_tag name = true ↔ name.data.take 4 = ['_', 'd', 'd', '.']) ∧
    is_internal_tag "_dd" = false ∧
    is_internal_tag "_DD.x" = false ∧
    is_internal_tag "x_dd.y" = false ∧
    (∀ (s : Span) (name value : String), is_internal_tag name = false →
      ((Span.set_tag s name value).data.tags =
        mapInsertOrAssign s.data.tags name value) ∧
      ((Span.remove_tag s name).data.tags = mapErase s.data.tags name) ∧
      (Span.lookup_tag s name = mapFind s.data.tags name)) ∧
    (∀ (s : Span) (v : String),
      Span.lookup_tag (Span.set_tag s "_dd" v) "_dd" = some v ∧
      Span.lookup_tag (Span.set_tag s "_DD.x" v) "_DD.x" = some v ∧
      Span.lookup_tag (Span.set_tag s "x_dd.y" v) "x_dd.y" = some v ∧
      Span.lookup_tag (Span.remove_tag s "_dd") "_dd" = none ∧
      Span.lookup_tag (Span.remove_tag s "_DD.x") "_DD.x" = none ∧
      Span.lookup_tag (Span.remove_tag s "x_dd.y") "x_dd.y" = none) := by
  refine ⟨?_, by decide, by decide, by decide, ?_, ?_⟩
  · intro name
    simpa using starts_with_iff_take name.data ['_', 'd', 'd', '.']
  · intro s name value h
    refine ⟨?_, ?_, ?_⟩ <;>
      simp [Span.set_tag, Span.remove_tag, Span.lookup_tag, h]
  · intro s v
    have h1 : is_internal_tag "_dd" = false := by decide
    have h2 : is_internal_tag "_DD.x" = false := by decide
    have h3 : is_internal_tag "x_dd.y" = false := by decide
    refine ⟨?_, ?_, ?_, ?_, ?_, ?_⟩ <;>
      simp [Span.set_tag, Span.remove_tag, Span.lookup_tag, h1, h2, h3,
        mapFind_mapInsertOrAssign_self, mapFind_mapErase_self]

theorem c10_internal_tag_exact_witness :
    ((Span.set_tag sampleSpan "x_dd.y" "u").data.tags =
      mapInsertOrAssign sampleSpan.data.tags "x_dd.y" "u") ∧
    ((Span.remove_tag sampleSpan "x_dd.y").data.tags =
      mapErase sampleSpan.data.tags "x_dd.y") ∧
    (Span.lookup_tag sampleSpan "x_dd.y" = mapFind sampleSpan.data.tags "x_dd.y") :=
  c10_internal_tag_exact.2.2.2.2.1 sampleSpan "x_dd.y" "u" (by decide)

end DdTrace
